import Mathlib

/-!
Verification development for the obdasystems/metastat-plugin repository.

The Python sources are shallowly embedded as executable Lean definitions:

* `Metastat.Settings` embeds `src/metastat/settings.py` (the `Repository`
  record and its QSettings-array persistence).
* `Metastat.Model` embeds `src/metastat/model.py` (the `LiteralValue`,
  `Owner` and `NamedEntity` DTOs used by the drag-and-drop handler in
  `src/metastat/__init__.py`).
* `Metastat.Dialogs` embeds `src/metastat/dialogs.py`
  (`RepositoryManagerDialog.doAddRepository` / `doRemoveRepository`).
* `Metastat.Widgets` embeds the logic of `src/metastat/widgets.py`
  (the fetch completion callback, the filter proxy, the drag mime data,
  the request URL of `getData`) together with the DTOs of
  `src/metastat/core.py` that this logic constructs.

Python dicts coming from JSON are modelled by records whose optional keys
are `Option`-valued; a raised Python exception is modelled with
`Except String` (the string names the raised error).
-/

namespace Metastat

/-! ### String containment (QString::contains semantics)

`QSortFilterProxyModel.setFilterFixedString` displays a row iff the row
text contains the filter string; with `QtCore.Qt.CaseInsensitive` the
containment check lowercases both sides.  An empty pattern matches every
string. -/

/-- Is `pat` an initial segment of `s`? -/
def chHead : List Char → List Char → Bool
  | [], _ => true
  | _ :: _, [] => false
  | a :: as, b :: bs => a = b && chHead as bs

/-- Does `pat` occur as a contiguous run inside `s`? -/
def chOccurs (pat : List Char) : List Char → Bool
  | [] => pat.isEmpty
  | c :: cs => chHead pat (c :: cs) || chOccurs pat cs

/-- Case-sensitive substring test on strings. -/
def strContains (s pat : String) : Bool :=
  chOccurs pat.toList s.toList

/-- ASCII case folding of one character (model of the toolkit's
case-insensitive comparison). -/
def lowerChar (c : Char) : Char :=
  if 65 ≤ c.toNat ∧ c.toNat ≤ 90 then Char.ofNat (c.toNat + 32) else c

/-- Case-insensitive substring test on strings
(`setFilterCaseSensitivity(QtCore.Qt.CaseInsensitive)`). -/
def strContainsCI (s pat : String) : Bool :=
  chOccurs (pat.toList.map lowerChar) (s.toList.map lowerChar)

namespace Settings

/-! ### src/metastat/settings.py -/

/-- `Repository.__init__(self, name, uri)`: a named HTTP endpoint record. -/
structure Repository where
  name : String
  uri : String
deriving DecidableEq, Repr

/-- The QSettings array written under key `metastat/repositories`:
`size` is the array size recorded by `beginWriteArray`/`endArray`, and
`entry` holds the `('name', 'uri')` values stored at each array index. -/
structure SettingsStore where
  size : Nat
  entry : List (String × String)
deriving DecidableEq, Repr

/-- `Repository.save(repositories)`: writes the list into the settings
array, one `(name, uri)` pair per index. -/
def Repository.save (repositories : List Repository) : SettingsStore :=
  { size := repositories.length
    entry := repositories.map fun r => (r.name, r.uri) }

/-- `Repository.load()`: reads `beginReadArray` size many entries back,
rebuilding one `Repository` per index. -/
def Repository.load (s : SettingsStore) : List Repository :=
  (List.range s.size).map fun i =>
    let e := s.entry.getD i ("", "")
    { name := e.1, uri := e.2 }

end Settings

namespace Model

/-! ### src/metastat/model.py

The JSON payload dicts are modelled by the record types below.  In the
scope of the round-trip claim the entries of the `lemma`/`definition`
arrays carry both keys `value` and `lang` (as `LiteralValue.from_dict`
indexes both unconditionally), while the keys of an `owner` object are
optional (`Owner.from_dict` uses `dict.get`).  An `Option` field value
`none` stands for an absent key (for `owner` subfields also for a JSON
`null`, which `dict.get` and Python truthiness treat identically). -/

/-- An entry of a `lemma`/`definition` array: `{value, lang}` with `lang`
possibly `null`. -/
structure LitDict where
  value : String
  lang : Option String
deriving DecidableEq, Repr

/-- An `owner` object: keys `id` and `name`, each possibly absent. -/
structure OwnerDict where
  id : Option String
  name : Option String
deriving DecidableEq, Repr

/-- A top-level entity payload object. -/
structure EntityDict where
  id : String
  type : String
  lemma_ : Option (List LitDict)
  definition : Option (List LitDict)
  owner : Option OwnerDict
deriving DecidableEq, Repr

/-- `LiteralValue(value, language)`. -/
structure LiteralValue where
  value : String
  lang : Option String
deriving DecidableEq, Repr

/-- `LiteralValue.from_dict`: `cls(data["value"], data["lang"])`. -/
def LiteralValue.from_dict (d : LitDict) : LiteralValue :=
  ⟨d.value, d.lang⟩

/-- `LiteralValue.to_dict`: `{"value": self.value, "lang": self.lang}`. -/
def LiteralValue.to_dict (l : LiteralValue) : LitDict :=
  ⟨l.value, l.lang⟩

/-- `Owner(id_, name)` as built by `Owner.from_dict` via `dict.get`
(either field may be `None`). -/
structure Owner where
  id : Option String
  name : Option String
deriving DecidableEq, Repr

/-- `Owner.from_dict`: `Owner(data.get("id"), data.get("name"))`. -/
def Owner.from_dict (d : OwnerDict) : Owner :=
  ⟨d.id, d.name⟩

/-- Python truthiness of an optional string: `None` and `''` are falsy. -/
def truthy : Option String → Bool
  | none => false
  | some s => s ≠ ""

/-- `Owner.to_dict`: starts from `{}` and adds `'id'`/`'name'` only when
the stored value is truthy. -/
def Owner.to_dict (o : Owner) : OwnerDict :=
  { id := if truthy o.id then o.id else none
    name := if truthy o.name then o.name else none }

/-- `NamedEntity` state after `NamedEntity.from_dict` has run
(`_id`, `_type`, `_lemmas`, `_definitions`, `_owner`). -/
structure NamedEntity where
  id : String
  type : String
  lemmas : List LiteralValue
  definitions : List LiteralValue
  owner : Option Owner
deriving DecidableEq, Repr

/-- `NamedEntity.from_dict`: takes `data["id"]`, `data["type"]`, extends
the lemma/definition lists when the keys are present, and maps an
`owner` object through `Owner.from_dict`. -/
def NamedEntity.from_dict (d : EntityDict) : NamedEntity :=
  { id := d.id
    type := d.type
    lemmas := (d.lemma_.getD []).map LiteralValue.from_dict
    definitions := (d.definition.getD []).map LiteralValue.from_dict
    owner := d.owner.map Owner.from_dict }

/-- `NamedEntity.iri`: `f"http://www.istat.it/metastat/{self.id}"`. -/
def NamedEntity.iri (e : NamedEntity) : String :=
  "http://www.istat.it/metastat/" ++ e.id

/-- The shape of `NamedEntity.to_dict(deep=True)`: the keys `lemma`,
`definition` and `owner` are always present (`owner` is `{}` when the
entity has no owner). -/
structure EntityDeepDict where
  id : String
  type : String
  lemma_ : List LitDict
  definition : List LitDict
  owner : OwnerDict
deriving DecidableEq, Repr

/-- `NamedEntity.to_dict(deep=True)`. -/
def NamedEntity.to_dict_deep (e : NamedEntity) : EntityDeepDict :=
  { id := e.id
    type := e.type
    lemma_ := e.lemmas.map LiteralValue.to_dict
    definition := e.definitions.map LiteralValue.to_dict
    owner := match e.owner with
      | some o => o.to_dict
      | none => ⟨none, none⟩ }

/-- Stated from the round-trip claim: the serialized output agrees with
the input dict `d` on every field present in `d` (`id` and `type` are
always present; `lemma`, `definition`, `owner` only when `d` has them). -/
def agreesOn (out : EntityDeepDict) (d : EntityDict) : Bool :=
  out.id = d.id && out.type = d.type &&
  (match d.lemma_ with | none => true | some xs => out.lemma_ = xs) &&
  (match d.definition with | none => true | some xs => out.definition = xs) &&
  (match d.owner with | none => true | some o => out.owner = o)

/-- Owner objects whose `id` and `name` are present and non-empty
(Python-truthy), the scope on which `Owner.to_dict` drops nothing. -/
def goodOwner : Option OwnerDict → Bool
  | none => true
  | some o => truthy o.id && truthy o.name

end Model

namespace Dialogs

/-! ### src/metastat/dialogs.py -/

/-- Result of `RepositoryManagerDialog.doAddRepository`: the warning
dialog title, if one was opened, and the persisted repository list after
the call (the saved list is only rewritten in the success branch). -/
structure AddOutcome where
  warning : Option String
  repos : List Settings.Repository
deriving DecidableEq, Repr

/-- `RepositoryManagerDialog.doAddRepository`: validates the two input
fields against the saved list and either opens a warning `QMessageBox`
or appends one record and saves.  `urlValid` is the verdict of
`QtCore.QUrl(uriField.text()).isValid()`, a host-toolkit predicate. -/
def doAddRepository (name uri : String) (urlValid : Bool)
    (saved : List Settings.Repository) : AddOutcome :=
  if name.length = 0 then
    ⟨some "Invalid Repository Name", saved⟩
  else if urlValid = false then
    ⟨some "Invalid Repository URI", saved⟩
  else if saved.any (fun r => r.name == name) then
    ⟨some "Duplicate Repository Error", saved⟩
  else
    ⟨none, saved ++ [⟨name, uri⟩]⟩

/-- Python `range(a, b)` counting upwards (empty when `b ≤ a`). -/
def pyRange (a b : Nat) : List Nat :=
  (List.range (b - a)).map (a + ·)

/-- The row-removal loops of `doRemoveRepository`: for each selected
range, `removeRow(row)` for `row in range(sel.bottomRow(), sel.topRow()+1)`.
A selection is a `(topRow, bottomRow)` pair; each removal happens on the
current table, so indices shift as in `QTableWidget.removeRow`
(removing an out-of-range index is a no-op, as in Qt). -/
def removeSelectedRows (rows : List (String × String))
    (sels : List (Nat × Nat)) : List (String × String) :=
  sels.foldl
    (fun acc sel =>
      (pyRange sel.2 (sel.1 + 1)).foldl (fun cur r => cur.eraseIdx r) acc)
    rows

/-- `RepositoryManagerDialog.doRemoveRepository`: runs the removal loops
on the table rows (each row holding the `(name, uri)` cell texts) and
rebuilds the repository list that is then passed to `Repository.save`. -/
def doRemoveRepository (rows : List (String × String))
    (sels : List (Nat × Nat)) : List Settings.Repository :=
  (removeSelectedRows rows sels).map fun e => ⟨e.1, e.2⟩

end Dialogs

namespace Widgets

/-! ### src/metastat/core.py DTOs reachable from the fetch path

`MetastatWidget.onRequestCompleted` builds `core.NamedEntity` objects
via `core.NamedEntity.from_dict`.  Absent dict keys raise `KeyError`,
modelled with `Except String`. -/

/-- An entry of a `lemma`/`definition` array as consumed by
`core.Annotation.from_dict`: the outer `Option` is key presence, the
inner `Option` (for `lang`) is a JSON `null`. -/
structure AnnEntryJson where
  value : Option String
  lang : Option (Option String)
deriving DecidableEq, Repr

/-- An `owner` object as consumed by `core.Owner.from_dict`. -/
structure OwnerJson where
  id : Option String
  name : Option String
deriving DecidableEq, Repr

/-- A decoded element of the fetched JSON array. -/
structure EntityJson where
  id : Option String
  type : Option String
  owner : Option OwnerJson
  lemma_ : Option (List AnnEntryJson)
  definition : Option (List AnnEntryJson)
deriving DecidableEq, Repr

/-- `core.LiteralValue(value, language)` (datatype is always `None` on
this path, so the well-formedness `ValueError` cannot fire). -/
structure CoreLiteral where
  value : String
  language : Option String
deriving DecidableEq, Repr

/-- `core.Annotation` restricted to the data reachable from the fetch
path: predicate IRI and a literal object (its subject is the enclosing
entity's own `{id, type}` dict). -/
structure CoreAnn where
  predicateIri : String
  object : CoreLiteral
deriving DecidableEq, Repr

/-- `core.Owner(id_, name)`. -/
structure CoreOwner where
  id : String
  name : String
deriving DecidableEq, Repr

/-- `core.NamedEntity` state after `core.NamedEntity.from_dict`. -/
structure CoreEntity where
  id : String
  type : String
  owner : Option CoreOwner
  lemmas : List CoreAnn
  definitions : List CoreAnn
deriving DecidableEq, Repr

/-- `rdfs:label`, the predicate used for `lemma` entries. -/
def labelIri : String := "http://www.w3.org/2000/01/rdf-schema#label"

/-- `rdfs:comment`, the predicate used for `definition` entries. -/
def commentIri : String := "http://www.w3.org/2000/01/rdf-schema#comment"

/-- `core.Owner.from_dict`: returns an owner only when the dict has an
`id` key; indexing `data["name"]` then raises if `name` is absent. -/
def coreOwnerFromDict (d : OwnerJson) : Except String (Option CoreOwner) :=
  match d.id with
  | some i =>
    match d.name with
    | some n => .ok (some ⟨i, n⟩)
    | none => .error "KeyError: name"
  | none => .ok none

/-- `core.Annotation.from_dict`: indexes `data["value"]` and
`data["lang"]` (raising on an absent key) and wraps them in a
`core.LiteralValue` object under the given predicate. -/
def coreAnnFromDict (pred : String) (d : AnnEntryJson) : Except String CoreAnn :=
  match d.value with
  | none => .error "KeyError: value"
  | some v =>
    match d.lang with
    | none => .error "KeyError: lang"
    | some l => .ok ⟨pred, ⟨v, l⟩⟩

/-- Sequences `core.Annotation.from_dict` over an array, stopping at the
first raised error (the Python `for` loop aborts there). -/
def coreAnnList (pred : String) : List AnnEntryJson → Except String (List CoreAnn)
  | [] => .ok []
  | a :: as => do
    let x ← coreAnnFromDict pred a
    let xs ← coreAnnList pred as
    .ok (x :: xs)

/-- `core.NamedEntity.from_dict`: indexes `data["id"]` and
`data["type"]`, then fills owner, lemmas and definitions from the
optional keys, propagating any raised `KeyError`. -/
def coreEntityFromDict (d : EntityJson) : Except String CoreEntity := do
  let i ← match d.id with
    | some i => Except.ok i
    | none => Except.error "KeyError: id"
  let t ← match d.type with
    | some t => Except.ok t
    | none => Except.error "KeyError: type"
  let ow ← match d.owner with
    | some o => coreOwnerFromDict o
    | none => Except.ok none
  let ls ← match d.lemma_ with
    | some l => coreAnnList labelIri l
    | none => Except.ok []
  let ds ← match d.definition with
    | some l => coreAnnList commentIri l
    | none => Except.ok []
  return ⟨i, t, ow, ls, ds⟩

/-! ### MetastatWidget.onRequestCompleted -/

/-- The decoded body of the network reply: `malformed` stands for a
`json.loads` failure, `array items` for a decoded JSON array. -/
inductive FetchBody
  | malformed
  | array (items : List EntityJson)
deriving DecidableEq, Repr

/-- A row of the backing `QStandardItemModel`: the displayed text
(`d["id"]`) and the `core.NamedEntity` stored via `setData`. -/
structure Row where
  text : String
  entity : CoreEntity
deriving DecidableEq, Repr

/-- The `for d in data` loop of `onRequestCompleted`: appends one row per
object (`itemText = d["id"]`, then `NamedEntity.from_dict(d)`), aborting
at the first raised exception; returns the model rows reached and the
raised error, if any.  Rows appended before the error remain. -/
def appendEntities : List EntityJson → List Row → List Row × Option String
  | [], acc => (acc, none)
  | d :: ds, acc =>
    match d.id with
    | none => (acc, some "KeyError: id")
    | some itemText =>
      match coreEntityFromDict d with
      | .error e => (acc, some e)
      | .ok ent => appendEntities ds (acc ++ [⟨itemText, ent⟩])

/-- The row obtained from one JSON object when its conversion raises no
exception. -/
def rowOfDict (d : EntityJson) : Option Row :=
  match d.id, coreEntityFromDict d with
  | some t, .ok e => some ⟨t, e⟩
  | _, _ => none

/-- The observable outcome of `onRequestCompleted`: the backing model
rows afterwards, the status-bar message shown (if any), and the
messages passed to `LOGGER.warning` / `LOGGER.error` (if any). -/
structure FetchOutcome where
  model : List Row
  statusMessage : Option String
  logWarning : Option String
  logError : Option String
deriving DecidableEq, Repr

/-- `MetastatWidget.onRequestCompleted` (the live version, not the
commented-out docstring one): on a finished reply with no network error
it decodes the body and appends rows, with any raised exception caught
and only logged via `LOGGER.error`; on a finished reply with a network
error it logs a warning and shows it in the status bar; an unfinished
reply does nothing. -/
def onRequestCompleted (model0 : List Row) (isFinished : Bool)
    (error : Option String) (body : FetchBody) : FetchOutcome :=
  if isFinished && error.isNone then
    match body with
    | .malformed =>
      ⟨model0, none, none, some "Failed to retrieve metadata: json decode error"⟩
    | .array items =>
      match appendEntities items model0 with
      | (m, none) => ⟨m, none, none, none⟩
      | (m, some e) => ⟨m, none, none, some ("Failed to retrieve metadata: " ++ e)⟩
  else
    match isFinished, error with
    | true, some s =>
      let msg := "Failed to retrieve metadata: " ++ s
      ⟨model0, some msg, some msg, none⟩
    | _, _ => ⟨model0, none, none, none⟩

/-! ### Filtering (MetastatWidget filter inputs and MetastatFilterProxyModel) -/

/-- The five text fields of an entity as shown by the widget's five
filter inputs; `itemText` is the column-0 text of the backing model row
(the entity id). -/
structure DisplayRow where
  itemText : String
  typeText : String
  lemmaText : String
  descriptionText : String
  ownerText : String
deriving DecidableEq, Repr

/-- The state of `MetastatFilterProxyModel` that the slots mutate:
`setFilterKeyColumn` / `setFilterFixedString`. -/
structure FilterState where
  filterKeyColumn : Nat
  filterString : String
deriving DecidableEq, Repr

/-- Proxy defaults: column 0, empty filter string. -/
def initFilterState : FilterState := ⟨0, ""⟩

/-- `MetastatWidget.doFilterItemByIri`: sets the filter column to 0 and
the filter string to the search-box text. -/
def doFilterItemByIri (st : FilterState) (key : String) : FilterState :=
  { st with filterKeyColumn := 0, filterString := key }

/-- A text-change/selection event on one of the five filter inputs. -/
inductive FilterEvent
  | searchChanged (key : String)
  | typeChanged (key : String)
  | lemmaChanged (key : String)
  | descriptionChanged (key : String)
  | ownerChanged (key : String)
deriving DecidableEq, Repr

/-- Signal dispatch as wired in `MetastatWidget.__init__`: only
`search.textChanged` is connected (to `doFilterItemByIri`); the
type/lemma/description/owner connections are commented out, so those
events reach no slot and leave the proxy state unchanged. -/
def applyFilterEvent (st : FilterState) : FilterEvent → FilterState
  | .searchChanged k => doFilterItemByIri st k
  | .typeChanged _ => st
  | .lemmaChanged _ => st
  | .descriptionChanged _ => st
  | .ownerChanged _ => st

/-- The text the proxy reads at a given column: the backing model rows
are single items, so only column 0 carries text. -/
def columnText (row : DisplayRow) : Nat → String
  | 0 => row.itemText
  | _ => ""

/-- `MetastatFilterProxyModel.filterAcceptsRow`: accepts any child row,
otherwise defers to `QSortFilterProxyModel`'s fixed-string test on the
filter column (case-insensitive). -/
def filterAcceptsRow (st : FilterState) (sourceParentValid : Bool)
    (row : DisplayRow) : Bool :=
  sourceParentValid || strContainsCI (columnText row st.filterKeyColumn) st.filterString

/-- A top-level row's visibility in the list view (its source parent is
the invalid root index). -/
def rowDisplayed (st : FilterState) (row : DisplayRow) : Bool :=
  filterAcceptsRow st false row

/-! ### MetastatWidget.getData and the MetastatView drag -/

/-- `MetastatWidget.getData` request URL: a `QUrl` built from the
hard-coded base with `'/all'` appended to its path.  The parameter is
the repository list configured in user preferences, which the method
never consults. -/
def getDataRequestUrl (_repos : List Settings.Repository) : String :=
  "https://obdasys.ddns.net/metastat" ++ "/all"

/-- `Item.ConceptNode.value` of the host's graphol item enum (the id
bound to the Class radio button in `EntityTypeDialog`). -/
def conceptNodeValue : Nat := 65537

/-- One `(format, payload)` entry of a `QMimeData`. -/
structure MimeEntry where
  format : String
  payload : String
deriving DecidableEq, Repr

/-- The `QMimeData` built by `MetastatView.mouseMoveEvent`:
`setText(str(Item.ConceptNode.value))` stores under `text/plain`, and
`setData(str(Item.ConceptNode.value), buf)` stores the entity id bytes
under the stringified item-enum format. -/
def dragMimeData (e : CoreEntity) : List MimeEntry :=
  [⟨"text/plain", toString conceptNodeValue⟩,
   ⟨toString conceptNodeValue, e.id⟩]

/-- `QMimeData.hasFormat`. -/
def hasFormat (m : List MimeEntry) (fmt : String) : Bool :=
  m.any fun x => x.format == fmt

/-- The MIME type tested by `MetastatPlugin.onDiagramDragDropEvent`. -/
def metastatMimeType : String := "application/json+metastat"

/-- The guard of `onDiagramDragDropEvent`
(`event.mimeData().hasFormat('application/json+metastat')`): the handler
body runs only when this is true. -/
def dropHandlerAccepts (m : List MimeEntry) : Bool :=
  hasFormat m metastatMimeType

end Widgets

namespace Plugin

/-! ### src/metastat/__init__.py -/

/-- The annotation-assertion subject IRI built by
`MetastatPlugin.onDiagramDragDropEvent` for the deserialized entity:
`self.session.project.getIRI('http://www.istat.it/metastat/' + str(entity.id))`. -/
def dropSubjectIri (e : Model.NamedEntity) : String :=
  "http://www.istat.it/metastat/" ++ e.id

end Plugin

/-! ## Helper lemmas -/

/-- Serializing a deserialized literal entry gives back the entry:
`LiteralValue.to_dict ∘ LiteralValue.from_dict` is the identity on
`{value, lang}` dicts. -/
theorem litdict_round (x : Model.LitDict) :
    Model.LiteralValue.to_dict (Model.LiteralValue.from_dict x) = x := rfl

/-- The list form of `litdict_round`. -/
theorem litdict_map_round (xs : List Model.LitDict) :
    xs.map (Model.LiteralValue.to_dict ∘ Model.LiteralValue.from_dict) = xs := by
  induction xs with
  | nil => rfl
  | cons a as ih => simp only [List.map_cons, ih]; rfl

/-- The append loop of `onRequestCompleted` on an array whose objects
all convert: it raises nothing and appends one row per object. -/
theorem appendEntities_ok (items : List Widgets.EntityJson) (acc : List Widgets.Row)
    (h : ∀ d ∈ items, (Widgets.rowOfDict d).isSome = true) :
    Widgets.appendEntities items acc = (acc ++ items.filterMap Widgets.rowOfDict, none) := by
  induction items generalizing acc with
  | nil => simp [Widgets.appendEntities]
  | cons d ds ih =>
    have hd := h d (List.mem_cons_self d ds)
    cases h1 : d.id with
    | none => simp [Widgets.rowOfDict, h1] at hd
    | some t =>
      cases h2 : Widgets.coreEntityFromDict d with
      | error e => simp [Widgets.rowOfDict, h1, h2] at hd
      | ok ent =>
        have hds : ∀ x ∈ ds, (Widgets.rowOfDict x).isSome = true :=
          fun x hx => h x (List.mem_cons_of_mem d hx)
        simp only [Widgets.appendEntities, h1, h2]
        rw [ih (acc ++ [Widgets.Row.mk t ent]) hds]
        simp [Widgets.rowOfDict, h1, h2, List.filterMap_cons]

/-- When every object converts, the filtered row list has one row per
object. -/
theorem filterMap_rowOfDict_length (items : List Widgets.EntityJson)
    (h : ∀ d ∈ items, (Widgets.rowOfDict d).isSome = true) :
    (items.filterMap Widgets.rowOfDict).length = items.length := by
  induction items with
  | nil => rfl
  | cons d ds ih =>
    have hd := h d (List.mem_cons_self d ds)
    have hds : ∀ x ∈ ds, (Widgets.rowOfDict x).isSome = true :=
      fun x hx => h x (List.mem_cons_of_mem d hx)
    cases hr : Widgets.rowOfDict d with
    | none => rw [hr] at hd; simp at hd
    | some row => simp [List.filterMap_cons, hr, ih hds]

/-- The append loop of `onRequestCompleted` on an array containing an
object whose conversion raises: the loop ends with a raised error. -/
theorem appendEntities_err (items : List Widgets.EntityJson) (acc : List Widgets.Row)
    (h : ∃ d ∈ items, Widgets.rowOfDict d = none) :
    (Widgets.appendEntities items acc).2.isSome = true := by
  induction items generalizing acc with
  | nil => simp at h
  | cons d ds ih =>
    cases h1 : d.id with
    | none => simp [Widgets.appendEntities, h1]
    | some t =>
      cases h2 : Widgets.coreEntityFromDict d with
      | error e => simp [Widgets.appendEntities, h1, h2]
      | ok ent =>
        rcases h with ⟨x, hx, hxnone⟩
        rcases List.mem_cons.mp hx with rfl | hx2
        · simp [Widgets.rowOfDict, h1, h2] at hxnone
        · simp only [Widgets.appendEntities, h1, h2]
          exact ih (acc ++ [⟨t, ent⟩]) ⟨x, hx2, hxnone⟩

/-! ## Claims -/

/-- Claim C1 counterexample: the mime data built by
`MetastatView.mouseMoveEvent` for a dragged entity does not carry the
`application/json+metastat` format, so the `hasFormat` guard of
`onDiagramDragDropEvent` rejects it — the claim that the guard accepts
every drag from the view is false already for this concrete entity. -/
theorem C1_counterexample :
    Widgets.dropHandlerAccepts
      (Widgets.dragMimeData ⟨"e1", "UnitType", none, [], []⟩) = false := by
  decide

/-- Claim C1 (amended): a drag from `MetastatView` carries the formats
`text/plain` and `str(Item.ConceptNode.value)` with the entity id as
payload — not an `application/json+metastat` JSON dict — and therefore
the `hasFormat('application/json+metastat')` guard of the drop handler
is false for every dragged entity. -/
theorem C1_drag_mime (e : Widgets.CoreEntity) :
    Widgets.dropHandlerAccepts (Widgets.dragMimeData e) = false
    ∧ Widgets.hasFormat (Widgets.dragMimeData e)
        (toString Widgets.conceptNodeValue) = true
    ∧ Widgets.MimeEntry.mk (toString Widgets.conceptNodeValue) e.id
        ∈ Widgets.dragMimeData e := by
  refine ⟨rfl, rfl, ?_⟩
  simp [Widgets.dragMimeData]

/-- Claim C2 counterexample: a successful fetch of a one-object array
onto a model that already holds one row leaves a model with two rows,
the old row still present — the callback appends instead of replacing. -/
theorem C2_counterexample :
    ((Widgets.onRequestCompleted
        [⟨"old", ⟨"old", "t", none, [], []⟩⟩] true none
        (Widgets.FetchBody.array [⟨some "e1", some "UnitType", none, none, none⟩])).model.length = 2)
    ∧ (Widgets.Row.mk "old" ⟨"old", "t", none, [], []⟩
        ∈ (Widgets.onRequestCompleted
          [⟨"old", ⟨"old", "t", none, [], []⟩⟩] true none
          (Widgets.FetchBody.array [⟨some "e1", some "UnitType", none, none, none⟩])).model) := by
  decide

/-- Claim C2 (amended): on a successfully completed fetch whose objects
all convert without an exception, the completion callback appends
exactly one row per object of the JSON array to the backing model; rows
from earlier fetches remain in place (the model is extended, not
replaced). -/
theorem C2_append (model0 : List Widgets.Row) (items : List Widgets.EntityJson)
    (h : ∀ d ∈ items, (Widgets.rowOfDict d).isSome = true) :
    (Widgets.onRequestCompleted model0 true none
        (Widgets.FetchBody.array items)).model
      = model0 ++ items.filterMap Widgets.rowOfDict
    ∧ (Widgets.onRequestCompleted model0 true none
        (Widgets.FetchBody.array items)).model.length
      = model0.length + items.length := by
  have happ := appendEntities_ok items model0 h
  constructor
  · simp [Widgets.onRequestCompleted, happ]
  · simp [Widgets.onRequestCompleted, happ, filterMap_rowOfDict_length items h]

/-- Claim C2 witness: the amended statement evaluated on a one-object
array appended to an empty model. -/
theorem C2_append_witness :
    (∀ d ∈ ([⟨some "e1", some "UnitType", none, none, none⟩] : List Widgets.EntityJson),
      (Widgets.rowOfDict d).isSome = true)
    ∧ (Widgets.onRequestCompleted [] true none
        (Widgets.FetchBody.array [⟨some "e1", some "UnitType", none, none, none⟩])).model
      = [] ++ ([⟨some "e1", some "UnitType", none, none, none⟩] : List Widgets.EntityJson).filterMap
          Widgets.rowOfDict :=
  ⟨by decide,
   (C2_append [] [⟨some "e1", some "UnitType", none, none, none⟩] (by decide)).1⟩

/-- Claim C3 counterexample: typing `zzz` in the lemma filter input
leaves a row displayed whose lemma text does not contain `zzz` — the
lemma input is not connected to any filter slot, so the claimed
five-filter conjunction is false. -/
theorem C3_counterexample :
    Widgets.rowDisplayed
      (Widgets.applyFilterEvent Widgets.initFilterState
        (Widgets.FilterEvent.lemmaChanged "zzz"))
      ⟨"E1", "UnitType", "casa", "descrizione", "istat"⟩ = true
    ∧ strContainsCI "casa" "zzz" = false := by
  decide

/-- Claim C3 (amended): only the IRI search box filters the list — after
a search-box change a row is displayed iff its item text contains the
search string case-insensitively, while changes to the type, lemma,
description and owner inputs reach no slot and leave the filter state
unchanged. -/
theorem C3_filters (st : Widgets.FilterState) (row : Widgets.DisplayRow) (k : String) :
    Widgets.rowDisplayed
        (Widgets.applyFilterEvent st (Widgets.FilterEvent.searchChanged k)) row
      = strContainsCI row.itemText k
    ∧ Widgets.applyFilterEvent st (Widgets.FilterEvent.typeChanged k) = st
    ∧ Widgets.applyFilterEvent st (Widgets.FilterEvent.lemmaChanged k) = st
    ∧ Widgets.applyFilterEvent st (Widgets.FilterEvent.descriptionChanged k) = st
    ∧ Widgets.applyFilterEvent st (Widgets.FilterEvent.ownerChanged k) = st := by
  refine ⟨?_, rfl, rfl, rfl, rfl⟩
  simp [Widgets.rowDisplayed, Widgets.filterAcceptsRow, Widgets.applyFilterEvent,
    Widgets.doFilterItemByIri, Widgets.columnText]

/-- Claim C4: repository persistence round-trips — saving any list of
repository records to the settings array and loading it back returns
the same list (same length, order, names and uris). -/
theorem C4_save_load_roundtrip (rs : List Settings.Repository) :
    Settings.Repository.load (Settings.Repository.save rs) = rs := by
  apply List.ext_getElem
  · simp [Settings.Repository.load, Settings.Repository.save]
  · intro i h1 h2
    simp [Settings.Repository.load, Settings.Repository.save,
      List.getD_eq_getElem?_getD, List.getElem?_map,
      List.getElem?_eq_getElem (by simpa using h2)]

/-- Claim C5 counterexample: the round-trip fails on a well-formed
payload whose owner has an empty `id` string — `Owner.to_dict` drops
falsy fields, so the serialized owner `{name: "Istat"}` differs from
the input owner `{id: "", name: "Istat"}`. -/
theorem C5_counterexample :
    Model.agreesOn
      (Model.NamedEntity.to_dict_deep (Model.NamedEntity.from_dict
        ⟨"e1", "UnitType", none, none, some ⟨some "", some "Istat"⟩⟩))
      ⟨"e1", "UnitType", none, none, some ⟨some "", some "Istat"⟩⟩ = false := by
  decide

/-- Claim C5 (amended): for every well-formed entity payload dict whose
owner, when present, has Python-truthy (present and non-empty) `id` and
`name`, `NamedEntity.from_dict(d).to_dict(deep=True)` agrees with `d`
on all fields present in `d`. -/
theorem C5_roundtrip (d : Model.EntityDict) (h : Model.goodOwner d.owner = true) :
    Model.agreesOn
      (Model.NamedEntity.to_dict_deep (Model.NamedEntity.from_dict d)) d = true := by
  obtain ⟨i, t, lem, defs, ow⟩ := d
  cases lem <;> cases defs <;> cases ow <;>
    simp_all [Model.agreesOn, Model.NamedEntity.from_dict, Model.NamedEntity.to_dict_deep,
      Model.goodOwner, Model.Owner.from_dict, Model.Owner.to_dict,
      litdict_map_round, litdict_round]

/-- Claim C5 witness: the amended round-trip evaluated on a payload with
lemmas, definitions and a truthy owner. -/
theorem C5_roundtrip_witness :
    Model.goodOwner (Model.EntityDict.mk "e1" "UnitType"
        (some [⟨"casa", some "it"⟩]) (some [⟨"a definition", none⟩])
        (some ⟨some "o1", some "Istat"⟩)).owner = true
    ∧ Model.agreesOn
      (Model.NamedEntity.to_dict_deep (Model.NamedEntity.from_dict
        (Model.EntityDict.mk "e1" "UnitType"
          (some [⟨"casa", some "it"⟩]) (some [⟨"a definition", none⟩])
          (some ⟨some "o1", some "Istat"⟩))))
      (Model.EntityDict.mk "e1" "UnitType"
        (some [⟨"casa", some "it"⟩]) (some [⟨"a definition", none⟩])
        (some ⟨some "o1", some "Istat"⟩)) = true :=
  ⟨by decide, C5_roundtrip _ (by decide)⟩

/-- Claim C6: `doAddRepository` rejects an empty name, an invalid URI or
a duplicate name with a warning dialog and leaves the persisted list
unchanged; otherwise it appends exactly one `{name, uri}` record. -/
theorem C6_add_validation (name uri : String) (urlValid : Bool)
    (saved : List Settings.Repository) :
    ((name.length = 0 ∨ urlValid = false ∨ saved.any (fun r => r.name == name) = true) →
      (Dialogs.doAddRepository name uri urlValid saved).warning.isSome = true
      ∧ (Dialogs.doAddRepository name uri urlValid saved).repos = saved)
    ∧ (name.length ≠ 0 → urlValid = true →
        saved.any (fun r => r.name == name) = false →
      (Dialogs.doAddRepository name uri urlValid saved).warning = none
      ∧ (Dialogs.doAddRepository name uri urlValid saved).repos
        = saved ++ [⟨name, uri⟩]) := by
  constructor
  · intro h
    simp only [Dialogs.doAddRepository]
    split_ifs with h1 h2 h3
    · exact ⟨rfl, rfl⟩
    · exact ⟨rfl, rfl⟩
    · exact ⟨rfl, rfl⟩
    · rcases h with h | h | h
      · exact absurd h h1
      · exact absurd h h2
      · exact absurd h h3
  · intro hn hu hd
    simp only [Dialogs.doAddRepository]
    split_ifs with h1 h2 h3
    · exact absurd h1 hn
    · rw [hu] at h2; exact absurd h2 (by decide)
    · rw [hd] at h3; exact absurd h3 (by decide)
    · exact ⟨rfl, rfl⟩

/-- Claim C6 witness: a valid addition appends the record; an empty name
leaves the saved list unchanged. -/
theorem C6_add_witness :
    ((Dialogs.doAddRepository "istat" "https://example.com/" true []).warning = none
      ∧ (Dialogs.doAddRepository "istat" "https://example.com/" true []).repos
        = [⟨"istat", "https://example.com/"⟩])
    ∧ (Dialogs.doAddRepository "" "https://example.com/" true
        [⟨"istat", "u"⟩]).repos = [⟨"istat", "u"⟩] :=
  ⟨(C6_add_validation "istat" "https://example.com/" true []).2
      (by decide) rfl (by decide),
   ((C6_add_validation "" "https://example.com/" true
      [⟨"istat", "u"⟩]).1 (Or.inl rfl)).2⟩

/-- Claim C7 counterexample: a JSON decode failure on a successful reply
is caught and logged via `LOGGER.error` but no status-bar message is
shown — contradicting the claim that every parse failure is surfaced as
a status-bar message. -/
theorem C7_counterexample :
    (Widgets.onRequestCompleted [] true none Widgets.FetchBody.malformed).statusMessage = none
    ∧ (Widgets.onRequestCompleted [] true none
        Widgets.FetchBody.malformed).logError.isSome = true := by
  decide

/-- Claim C7 (amended): every fetch failure is caught inside the
callback (no exception propagates and no retry is attempted): a
network-level reply error is logged as a warning and surfaced in the
status bar, while a parse failure — a decode error or an exception
while mapping an object — is caught and logged via `LOGGER.error` but
produces no status-bar message. -/
theorem C7_failure_handling (model0 : List Widgets.Row) (s : String)
    (body : Widgets.FetchBody) (items : List Widgets.EntityJson) :
    ((Widgets.onRequestCompleted model0 true (some s) body).statusMessage
        = some ("Failed to retrieve metadata: " ++ s)
      ∧ (Widgets.onRequestCompleted model0 true (some s) body).logWarning
        = some ("Failed to retrieve metadata: " ++ s))
    ∧ ((Widgets.onRequestCompleted model0 true none
          Widgets.FetchBody.malformed).logError.isSome = true
      ∧ (Widgets.onRequestCompleted model0 true none
          Widgets.FetchBody.malformed).statusMessage = none)
    ∧ ((∃ d ∈ items, Widgets.rowOfDict d = none) →
      (Widgets.onRequestCompleted model0 true none
          (Widgets.FetchBody.array items)).logError.isSome = true
      ∧ (Widgets.onRequestCompleted model0 true none
          (Widgets.FetchBody.array items)).statusMessage = none) := by
  refine ⟨⟨rfl, rfl⟩, ⟨rfl, rfl⟩, fun h => ?_⟩
  have herr := appendEntities_err items model0 h
  simp only [Widgets.onRequestCompleted]
  cases happ : Widgets.appendEntities items model0 with
  | mk m oe =>
    cases oe with
    | none => rw [happ] at herr; simp at herr
    | some e => simp [happ]

/-- Claim C7 witness: the amended statement evaluated on a concrete
network error and on a concrete array whose single object lacks the
`id` key. -/
theorem C7_failure_witness :
    (Widgets.onRequestCompleted [] true (some "timeout")
        Widgets.FetchBody.malformed).statusMessage
      = some "Failed to retrieve metadata: timeout"
    ∧ (∃ d ∈ ([⟨none, none, none, none, none⟩] : List Widgets.EntityJson),
        Widgets.rowOfDict d = none)
    ∧ (Widgets.onRequestCompleted [] true none
        (Widgets.FetchBody.array
          [⟨none, none, none, none, none⟩])).logError.isSome = true :=
  ⟨(C7_failure_handling [] "timeout" Widgets.FetchBody.malformed []).1.1,
   by decide,
   ((C7_failure_handling [] "x" Widgets.FetchBody.malformed
      [⟨none, none, none, none, none⟩]).2.2 (by decide)).1⟩

/-- Claim C8 counterexample: with a concrete configured repository list,
the request URL issued by `getData` is the hard-coded
`https://obdasys.ddns.net/metastat/all` and does not contain the
configured record's uri — it is not derived from user preferences. -/
theorem C8_counterexample :
    Widgets.getDataRequestUrl [⟨"local", "http://localhost:8080/"⟩]
      = "https://obdasys.ddns.net/metastat/all"
    ∧ strContains
        (Widgets.getDataRequestUrl [⟨"local", "http://localhost:8080/"⟩])
        "http://localhost:8080/" = false := by
  constructor
  · rfl
  · decide

/-- Claim C8 (amended): the fetch URL of `getData` is the constant
`https://obdasys.ddns.net/metastat/all`, independent of whatever
repository records are configured in user preferences. -/
theorem C8_fixed_url (repos repos2 : List Settings.Repository) :
    Widgets.getDataRequestUrl repos = "https://obdasys.ddns.net/metastat/all"
    ∧ Widgets.getDataRequestUrl repos = Widgets.getDataRequestUrl repos2 :=
  ⟨rfl, rfl⟩

/-- Claim C9: `NamedEntity.iri` is the fixed prefix
`http://www.istat.it/metastat/` concatenated with the entity id, and
the drop handler builds its annotation-assertion subject IRI from the
same prefix and id, so the registered subject IRI always equals the
entity's `iri` property. -/
theorem C9_subject_iri (e : Model.NamedEntity) (d : Model.EntityDict) :
    Plugin.dropSubjectIri e = e.iri
    ∧ Plugin.dropSubjectIri (Model.NamedEntity.from_dict d)
      = (Model.NamedEntity.from_dict d).iri
    ∧ (Model.NamedEntity.from_dict d).iri
      = "http://www.istat.it/metastat/" ++ d.id :=
  ⟨rfl, rfl, rfl⟩

/-- Claim C10: `doRemoveRepository` only removes rows for single-row
selections — for a selected range with `topRow < bottomRow` the inner
`range(bottomRow, topRow+1)` is empty, so the table and the re-saved
list are unchanged; for a single-row selection exactly that row is
removed from the table and hence from the saved list. -/
theorem C10_remove_rows (rows : List (String × String)) (top bottom : Nat) :
    (top < bottom →
      Dialogs.doRemoveRepository rows [(top, bottom)]
        = rows.map fun e => ⟨e.1, e.2⟩)
    ∧ ∀ r : Nat,
      Dialogs.doRemoveRepository rows [(r, r)]
        = (rows.eraseIdx r).map fun e => ⟨e.1, e.2⟩ := by
  constructor
  · intro h
    have h0 : top + 1 - bottom = 0 := Nat.sub_eq_zero_of_le h
    simp [Dialogs.doRemoveRepository, Dialogs.removeSelectedRows, Dialogs.pyRange, h0]
  · intro r
    have h1 : r + 1 - r = 1 := by omega
    have h2 : List.range 1 = [0] := rfl
    simp [Dialogs.doRemoveRepository, Dialogs.removeSelectedRows, Dialogs.pyRange, h1, h2]

/-- Claim C10 witness: a two-row range removes nothing; the single-row
selection of row 1 removes exactly that row. -/
theorem C10_remove_witness :
    (0 < 1
      ∧ Dialogs.doRemoveRepository [("a", "ua"), ("b", "ub")] [(0, 1)]
        = [⟨"a", "ua"⟩, ⟨"b", "ub"⟩])
    ∧ Dialogs.doRemoveRepository [("a", "ua"), ("b", "ub")] [(1, 1)]
      = [⟨"a", "ua"⟩] :=
  ⟨⟨by decide,
    (C10_remove_rows [("a", "ua"), ("b", "ub")] 0 1).1 (by decide)⟩,
   (C10_remove_rows [("a", "ua"), ("b", "ub")] 0 0).2 1⟩

end Metastat
